import Mathlib

/-!
Verification of the 2steps-slack-alert program (src/src/main.rs): a shallow
embedding of its configuration loading, broker session lifecycle and
notification pipeline, with theorems about each part.

External effects (filesystem reads, the YAML parser, the AMQP broker, the
HTTP client, the environment) are passed in as explicit values or oracles;
the control flow, orderings, and error strings are translated directly from
the source.
-/

namespace TwoStepsSlackAlert

/-- YAML values, modelled from the yaml-rust crate used by the program.
A hash is an insertion-ordered association list with `Yaml` keys, matching
yaml-rust's `Hash = LinkedHashMap<Yaml, Yaml>`; `badValue` is yaml-rust's
`Yaml::BadValue`, returned by failed lookups. -/
inductive Yaml : Type where
  | real (s : String)
  | integer (i : Int)
  | string (s : String)
  | boolean (b : Bool)
  | array (xs : List Yaml)
  | hash (kvs : List (Yaml × Yaml))
  | null
  | badValue

/-- yaml-rust `Yaml::as_str`: `Some` exactly on `Yaml::String`. -/
def Yaml.as_str : Yaml → Option String
  | .string s => some s
  | _ => none

/-- yaml-rust `Index<&str> for Yaml`: on a hash, look up the key
`Yaml::String(idx)` (first matching entry), else `BadValue`; on a non-hash,
`BadValue`. -/
def Yaml.index (y : Yaml) (k : String) : Yaml :=
  match y with
  | .hash kvs =>
    match kvs.find? (fun kv =>
      match kv.1 with
      | .string s => s == k
      | _ => false) with
    | some kv => kv.2
    | none => .badValue
  | _ => .badValue

/-- `struct SlackConfig` of main.rs (line 87). -/
structure SlackConfig : Type where
  url : String
deriving DecidableEq

/-- `struct Config` of main.rs (line 103). -/
structure Config : Type where
  slack : SlackConfig
deriving DecidableEq

/-- `impl TryFrom<yaml_rust::Yaml> for SlackConfig` (main.rs lines 90-101):
`yaml["slack"]["url"].as_str().ok_or("Configuration missing required Slack URL")`. -/
def SlackConfig.try_from (yaml : Yaml) : Except String SlackConfig :=
  match ((yaml.index "slack").index "url").as_str with
  | some s => .ok ⟨s⟩
  | none => .error "Configuration missing required Slack URL"

/-- Result of running a fallible Rust function that can also panic:
`ok`/`err` mirror `Result`, `panic` an uncaught panic (e.g. an out-of-bounds
index or an `unwrap` of an `Err`). -/
inductive Outcome (α : Type) : Type where
  | ok (a : α)
  | err (e : String)
  | panic
deriving DecidableEq

/-- `read_config` (main.rs lines 107-117). The filesystem read and the YAML
parse are passed in: `raw` is the result of `fs::read_to_string(path)` (its
error already formatted as a string) and `load_from_str` is
`YamlLoader::load_from_str`. `docs[0]` on an empty document list is a panic
in Rust, embedded as `Outcome.panic`. -/
def read_config (raw : Except String String)
    (load_from_str : String → Except String (List Yaml)) : Outcome Config :=
  match raw with
  | .error e => .err ("Unable to read configuration: " ++ e)
  | .ok contents =>
    match load_from_str contents with
    | .error e => .err ("Unable to parse configuration: " ++ e)
    | .ok docs =>
      match docs.head? with
      | none => .panic
      | some doc =>
        match SlackConfig.try_from doc with
        | .error e => .err e
        | .ok slack => .ok ⟨slack⟩

/-- Observable calls the program makes against the AMQP broker, in the order
they are issued. Codes/reasons are the arguments of `Channel::close` /
`Connection::close`. -/
inductive BrokerEvent : Type where
  | connect (addr : String)
  | createChannel
  | exchangeDeclare (name kind : String)
  | queueDeclare (name : String)
  | basicConsume (queue tag : String)
  | channelClose (code : Nat) (reason : String)
  | connectionClose (code : Nat) (reason : String)
deriving DecidableEq

/-- Oracle for the broker side: the result of each awaited lapin call inside
`rabbit_connect`, in program order. Errors are represented by their message
strings. -/
structure BrokerOracle : Type where
  connectResult : Except String Unit
  channelResult : Except String Unit
  exchangeResult : Except String Unit
  queueResult : Except String Unit
  consumeResult : Except String Unit

/-- Whether every broker call of `rabbit_connect` succeeds. -/
def BrokerOracle.allOk (o : BrokerOracle) : Bool :=
  (match o.connectResult with | .ok _ => true | .error _ => false) &&
  (match o.channelResult with | .ok _ => true | .error _ => false) &&
  (match o.exchangeResult with | .ok _ => true | .error _ => false) &&
  (match o.queueResult with | .ok _ => true | .error _ => false) &&
  (match o.consumeResult with | .ok _ => true | .error _ => false)

/-- `struct Rabbit` (main.rs lines 11-16). The connection and channel handles
carry no observable data in this model; the queue and consumer are recorded by
the names used to declare them. -/
structure Rabbit : Type where
  q : String
  consumerTag : String
deriving DecidableEq

/-- Address resolution on main.rs line 27:
`std::env::var("AMQP_ADDR").unwrap_or_else(|_| "amqp://127.0.0.1:5672/%2f".into())`.
`env` is the value of the `AMQP_ADDR` environment variable when set. -/
def amqp_addr (env : Option String) : String :=
  match env with
  | some a => a
  | none => "amqp://127.0.0.1:5672/%2f"

/-- The five broker calls of a fully successful `rabbit_connect`, in program
order (main.rs lines 29-52). -/
def rabbit_steps (env : Option String) (ex q : String) : List BrokerEvent :=
  [.connect (amqp_addr env), .createChannel, .exchangeDeclare ex "Headers",
   .queueDeclare q, .basicConsume q "my tag"]

/-- `rabbit_connect` (main.rs lines 26-62), returning the trace of broker
calls actually issued and the result: each step awaits its oracle result and
propagates an error with `?`, so a failing step ends the sequence there. -/
def rabbit_connect (env : Option String) (o : BrokerOracle) (ex q : String) :
    List BrokerEvent × Except String Rabbit :=
  let addr := amqp_addr env
  match o.connectResult with
  | .error e => ([.connect addr], .error e)
  | .ok _ =>
  match o.channelResult with
  | .error e => ([.connect addr, .createChannel], .error e)
  | .ok _ =>
  match o.exchangeResult with
  | .error e =>
    ([.connect addr, .createChannel, .exchangeDeclare ex "Headers"], .error e)
  | .ok _ =>
  match o.queueResult with
  | .error e =>
    ([.connect addr, .createChannel, .exchangeDeclare ex "Headers",
      .queueDeclare q], .error e)
  | .ok _ =>
  match o.consumeResult with
  | .error e =>
    ([.connect addr, .createChannel, .exchangeDeclare ex "Headers",
      .queueDeclare q, .basicConsume q "my tag"], .error e)
  | .ok _ =>
    ([.connect addr, .createChannel, .exchangeDeclare ex "Headers",
      .queueDeclare q, .basicConsume q "my tag"],
     .ok ⟨q, "my tag"⟩)

/-- `impl Drop for Rabbit` (main.rs lines 18-24):
`block_on(self.chan.close(200, "client shut down")).unwrap();`
`block_on(self.conn.close(200, "client shut down")).unwrap();`
Returns the close calls issued and, when an `unwrap` fires, the panic payload.
A failing channel close panics before the connection close is ever issued. -/
def rabbit_drop (chanClose connClose : Except String Unit) :
    List BrokerEvent × Option String :=
  match chanClose with
  | .error e => ([.channelClose 200 "client shut down"], some e)
  | .ok _ =>
    match connClose with
    | .error e =>
      ([.channelClose 200 "client shut down",
        .connectionClose 200 "client shut down"], some e)
    | .ok _ =>
      ([.channelClose 200 "client shut down",
        .connectionClose 200 "client shut down"], none)

/-- Observable events of one run of `main`, in order. -/
inductive MainEvent : Type where
  | broker (e : BrokerEvent)
  | httpPost (url : String)
  | logInfo (msg : String)
  | logDebug (msg : String)
  | logError (msg : String)
deriving DecidableEq

/-- Outcome of the webhook call, named after the spec vocabulary: the two
branches of the `match res.status()` on main.rs lines 168-171 (200 is
`reqwest::StatusCode::OK`). -/
inductive DeliveryResult : Type where
  | acknowledged
  | rejected (status : Nat)
deriving DecidableEq

/-- The branch of the status match (main.rs lines 168-171) a status selects. -/
def interpret_status (status : Nat) : DeliveryResult :=
  if status = 200 then .acknowledged else .rejected status

/-- The log event emitted by the status match (main.rs lines 168-171). -/
def status_log (status : Nat) : MainEvent :=
  if status = 200 then .logDebug "Message acknowledged by Slack"
  else .logError ("Slack returned " ++ toString status)

/-- `main` (main.rs lines 119-174), as a function of its external inputs:
`path` is `get_config_path()`, `raw`/`load_from_str` feed `read_config`,
`env`/`o` feed `rabbit_connect`, `chanClose`/`connClose` are the close
results seen when `Rabbit` is dropped, and `sendResult` is the HTTP send:
`error` for a transport failure, `ok status` for a response. Returns the
event trace and the process outcome. The drop of `rabbit` runs at scope
exit on every path after a successful `rabbit_connect`, whether `main`
returns `Ok` or an early `Err` from the send; a panic in the drop replaces
the outcome. -/
def main_model (path : String) (raw : Except String String)
    (load_from_str : String → Except String (List Yaml))
    (env : Option String) (o : BrokerOracle)
    (chanClose connClose : Except String Unit)
    (sendResult : Except String Nat) : List MainEvent × Outcome Unit :=
  let cfgLog := MainEvent.logInfo ("Reading configuration from " ++ path)
  match read_config raw load_from_str with
  | .err e => ([cfgLog], .err e)
  | .panic => ([cfgLog], .panic)
  | .ok cfg =>
    let conn := rabbit_connect env o "2steps" "slack_alerts"
    match conn.2 with
    | .error e =>
      (cfgLog :: conn.1.map .broker, .err ("Failed to initialize rabbit: " ++ e))
    | .ok _ =>
      let dropped := rabbit_drop chanClose connClose
      let body : List MainEvent × Outcome Unit :=
        match sendResult with
        | .error e =>
          ([.httpPost cfg.slack.url], .err ("failed sending to slack: " ++ e))
        | .ok status => ([.httpPost cfg.slack.url, status_log status], .ok ())
      (cfgLog :: conn.1.map .broker ++ body.1 ++ dropped.1.map .broker,
       match dropped.2 with
       | some _ => .panic
       | none => body.2)

/-- Whether a main event is one of the two teardown close calls. -/
def isCloseEvent : MainEvent → Bool
  | .broker (.channelClose _ _) => true
  | .broker (.connectionClose _ _) => true
  | _ => false

/-- When every broker call succeeds, `rabbit_connect` issues exactly the five
steps in order and returns the session value. -/
theorem rabbit_connect_of_allOk (env : Option String) (o : BrokerOracle)
    (ex q : String) (h : o.allOk = true) :
    rabbit_connect env o ex q = (rabbit_steps env ex q, .ok ⟨q, "my tag"⟩) := by
  obtain ⟨r1, r2, r3, r4, r5⟩ := o
  cases r1 <;> cases r2 <;> cases r3 <;> cases r4 <;> cases r5 <;>
    first
    | rfl
    | simp [BrokerOracle.allOk] at h

/-- Claim C10: when the filesystem read succeeds and the YAML parse succeeds
with zero documents (as for an empty file), `read_config` hits the
out-of-bounds `docs[0]` access: under the total embedding the first-document
lookup is `none` and no `ConfigError` branch covers it, so the result is a
panic, not an error value. -/
theorem c10_empty_docs_panic (raw : String)
    (load_from_str : String → Except String (List Yaml))
    (h : load_from_str raw = .ok []) :
    read_config (.ok raw) load_from_str = .panic := by
  simp [read_config, h]

/-- Witness for C10 at the empty file, whose parse yields zero documents. -/
theorem c10_empty_docs_panic_witness :
    read_config (.ok "") (fun _ => .ok []) = .panic :=
  c10_empty_docs_panic "" (fun _ => .ok []) rfl

/-- Claim C3: for any document whose `slack.url` entry is the string `s`,
loading returns a configuration carrying exactly `s`. -/
theorem c3_exact_url (raw : String)
    (load_from_str : String → Except String (List Yaml))
    (docs : List Yaml) (d : Yaml) (s : String)
    (hload : load_from_str raw = .ok docs)
    (hhead : docs.head? = some d)
    (hurl : (d.index "slack").index "url" = .string s) :
    read_config (.ok raw) load_from_str = .ok ⟨⟨s⟩⟩ := by
  simp [read_config, hload, hhead, SlackConfig.try_from, hurl, Yaml.as_str]

/-- Witness for C3 on a concrete document with `slack.url = "https://x"`. -/
theorem c3_exact_url_witness :
    read_config (.ok "slack:\n  url: https://x")
      (fun _ => .ok [.hash [(.string "slack",
        .hash [(.string "url", .string "https://x")])]]) = .ok ⟨⟨"https://x"⟩⟩ :=
  c3_exact_url "slack:\n  url: https://x" _ _ _ "https://x" rfl rfl rfl

/-- Claim C4: for any document that parses (to at least one document) but
whose first document has no string at `slack.url`, loading fails with exactly
the missing-field message — not the parse-failure wrapping and not a panic. -/
theorem c4_missing_field_error (raw : String)
    (load_from_str : String → Except String (List Yaml))
    (docs : List Yaml) (d : Yaml)
    (hload : load_from_str raw = .ok docs)
    (hhead : docs.head? = some d)
    (hmiss : ((d.index "slack").index "url").as_str = none) :
    read_config (.ok raw) load_from_str =
      .err "Configuration missing required Slack URL" := by
  simp [read_config, hload, hhead, SlackConfig.try_from, hmiss]

/-- Witness for C4 on a document that is an empty mapping. -/
theorem c4_missing_field_error_witness :
    read_config (.ok "other: 1")
      (fun _ => .ok [.hash [(.string "other", .integer 1)]]) =
      .err "Configuration missing required Slack URL" :=
  c4_missing_field_error "other: 1" _ _ _ rfl rfl rfl

/-- Counterexample to C2: a document whose `slack.url` is the empty string is
accepted by the loader, producing a configuration whose URL is empty —
loading does not fail on an empty field. -/
theorem c2_counterexample :
    read_config (.ok "slack:\n  url: \x22\x22")
      (fun _ => .ok [.hash [(.string "slack",
        .hash [(.string "url", .string "")])]]) = .ok ⟨⟨""⟩⟩ := by
  rfl

/-- Claim C2 as amended: loading fails exactly when `slack.url` is absent or
not a string; any string value, the empty string included, is accepted and
becomes the configuration's URL unchanged. -/
theorem c2_url_presence (d : Yaml) :
    (∀ s, ((d.index "slack").index "url").as_str = some s →
      SlackConfig.try_from d = .ok ⟨s⟩) ∧
    (((d.index "slack").index "url").as_str = none →
      SlackConfig.try_from d =
        .error "Configuration missing required Slack URL") := by
  constructor
  · intro s hs
    simp [SlackConfig.try_from, hs]
  · intro hn
    simp [SlackConfig.try_from, hn]

/-- Witness for the amended C2 at the empty-string document. -/
theorem c2_url_presence_witness :
    SlackConfig.try_from
      (.hash [(.string "slack", .hash [(.string "url", .string "")])]) =
      .ok ⟨""⟩ :=
  (c2_url_presence
    (.hash [(.string "slack", .hash [(.string "url", .string "")])])).1 "" rfl

/-- Counterexample to C1: a failure while closing the channel during teardown
is not absorbed — the drop's `unwrap` turns it into a panic that escapes the
teardown path. -/
theorem c1_counterexample :
    ¬ (rabbit_drop (.error "channel close failed") (.ok ())).2 = none := by
  simp [rabbit_drop]

/-- Claim C1 as amended: every error raised while closing the channel or the
connection during teardown escapes as a panic (the close results are
unwrapped, not logged), and a channel-close failure additionally prevents the
connection close from ever being issued; teardown completes without panicking
only when both closes succeed. -/
theorem c1_teardown_panics :
    (∀ e r, (rabbit_drop (.error e) r).2 = some e) ∧
    (∀ e r, (rabbit_drop (.error e) r).1 =
      [.channelClose 200 "client shut down"]) ∧
    (∀ e, (rabbit_drop (.ok ()) (.error e)).2 = some e) ∧
    (rabbit_drop (.ok ()) (.ok ())).2 = none := by
  exact ⟨fun e r => rfl, fun e r => rfl, fun e => rfl, rfl⟩

/-- Claim C7: the trace of `rabbit_connect` is always an initial segment of
the five fixed steps in order (so no step is skipped or reordered); when every
step succeeds the full sequence runs and the session value is returned, and
when any step fails the result is an error, so no `Rabbit` value is
produced. -/
theorem c7_connect_sequence (env : Option String) (o : BrokerOracle)
    (ex q : String) :
    (∃ n, (rabbit_connect env o ex q).1 = (rabbit_steps env ex q).take n) ∧
    (o.allOk = true →
      rabbit_connect env o ex q = (rabbit_steps env ex q, .ok ⟨q, "my tag"⟩)) ∧
    (o.allOk = false →
      ∃ e, (rabbit_connect env o ex q).2 = .error e) := by
  obtain ⟨r1, r2, r3, r4, r5⟩ := o
  refine ⟨?_, ?_, ?_⟩
  · cases r1 <;> cases r2 <;> cases r3 <;> cases r4 <;> cases r5 <;>
      first
      | exact ⟨1, rfl⟩
      | exact ⟨2, rfl⟩
      | exact ⟨3, rfl⟩
      | exact ⟨4, rfl⟩
      | exact ⟨5, rfl⟩
  · intro h
    cases r1 <;> cases r2 <;> cases r3 <;> cases r4 <;> cases r5 <;>
      first
      | rfl
      | simp [BrokerOracle.allOk] at h
  · intro h
    cases r1 <;> cases r2 <;> cases r3 <;> cases r4 <;> cases r5 <;>
      first
      | exact ⟨_, rfl⟩
      | simp [BrokerOracle.allOk] at h

/-- Witness for C7 at an oracle whose exchange declaration fails. -/
theorem c7_connect_sequence_witness :
    BrokerOracle.allOk
      ⟨.ok (), .ok (), .error "exchange declare refused", .ok (), .ok ()⟩ =
      false ∧
    ∃ e, (rabbit_connect none
      ⟨.ok (), .ok (), .error "exchange declare refused", .ok (), .ok ()⟩
      "2steps" "slack_alerts").2 = .error e :=
  ⟨rfl, (c7_connect_sequence none
    ⟨.ok (), .ok (), .error "exchange declare refused", .ok (), .ok ()⟩
    "2steps" "slack_alerts").2.2 rfl⟩

/-- Claim C9: the address `rabbit_connect` connects to is the value of
`AMQP_ADDR` when set and exactly the default URI when unset; the connect call
is always the first broker event issued. -/
theorem c9_broker_address (env : Option String) (o : BrokerOracle)
    (ex q s : String) :
    amqp_addr (some s) = s ∧
    amqp_addr none = "amqp://127.0.0.1:5672/%2f" ∧
    (rabbit_connect env o ex q).1.head? = some (.connect (amqp_addr env)) := by
  refine ⟨rfl, rfl, ?_⟩
  obtain ⟨r1, r2, r3, r4, r5⟩ := o
  cases r1 <;> cases r2 <;> cases r3 <;> cases r4 <;> cases r5 <;> rfl

/-- Claim C5: a 200 response selects the acknowledged branch and any other
status selects the rejected branch carrying that status; either way the
rejected status is only logged (at error level) and the run still succeeds —
after the single send attempt `main` returns `Ok`, i.e. exit code 0. -/
theorem c5_status_handling (path : String) (raw : Except String String)
    (load_from_str : String → Except String (List Yaml))
    (env : Option String) (o : BrokerOracle) (c : Config) (status : Nat)
    (hcfg : read_config raw load_from_str = .ok c)
    (hall : o.allOk = true) :
    interpret_status 200 = .acknowledged ∧
    (status ≠ 200 → interpret_status status = .rejected status) ∧
    (main_model path raw load_from_str env o (.ok ()) (.ok ())
      (.ok status)).2 = .ok () ∧
    (status ≠ 200 →
      MainEvent.logError ("Slack returned " ++ toString status) ∈
        (main_model path raw load_from_str env o (.ok ()) (.ok ())
          (.ok status)).1) := by
  have hr := rabbit_connect_of_allOk env o "2steps" "slack_alerts" hall
  refine ⟨rfl, ?_, ?_, ?_⟩
  · intro h
    simp [interpret_status, h]
  · simp [main_model, hcfg, hr, rabbit_drop]
  · intro h
    simp [main_model, hcfg, hr, rabbit_drop, status_log, h, rabbit_steps]

/-- A parse function returning one fixed document with `slack.url`. -/
def fixedLoad : String → Except String (List Yaml) :=
  fun _ => .ok [.hash [(.string "slack",
    .hash [(.string "url", .string "https://x")])]]

/-- The all-success broker oracle. -/
def okOracle : BrokerOracle := ⟨.ok (), .ok (), .ok (), .ok (), .ok ()⟩

/-- Witness for C5 at a 503 response: the run still returns `Ok`. -/
theorem c5_status_handling_witness :
    (main_model "p" (.ok "cfg") fixedLoad none okOracle (.ok ()) (.ok ())
      (.ok 503)).2 = .ok () ∧
    interpret_status 503 = .rejected 503 :=
  ⟨(c5_status_handling "p" (.ok "cfg") fixedLoad none okOracle ⟨⟨"https://x"⟩⟩
      503 rfl rfl).2.2.1,
   (c5_status_handling "p" (.ok "cfg") fixedLoad none okOracle ⟨⟨"https://x"⟩⟩
      503 rfl rfl).2.1 (by decide)⟩

/-- Claim C6: on every path after a successful connect — whether the send
succeeded, was rejected, or failed — the run's trace ends with exactly one
teardown: the channel close (code 200, reason string) immediately followed by
the connection close, and no close event occurs anywhere earlier. -/
theorem c6_teardown_order (path : String) (raw : Except String String)
    (load_from_str : String → Except String (List Yaml))
    (env : Option String) (o : BrokerOracle) (c : Config)
    (sendResult : Except String Nat)
    (hcfg : read_config raw load_from_str = .ok c)
    (hall : o.allOk = true) :
    ∃ evs, (main_model path raw load_from_str env o (.ok ()) (.ok ())
        sendResult).1 =
      evs ++ [.broker (.channelClose 200 "client shut down"),
              .broker (.connectionClose 200 "client shut down")] ∧
      evs.countP isCloseEvent = 0 := by
  have hr := rabbit_connect_of_allOk env o "2steps" "slack_alerts" hall
  cases sendResult with
  | error e =>
    refine ⟨.logInfo ("Reading configuration from " ++ path) ::
      ((rabbit_steps env "2steps" "slack_alerts").map .broker ++
        [.httpPost c.slack.url]), ?_, ?_⟩
    · simp [main_model, hcfg, hr, rabbit_drop]
    · rfl
  | ok status =>
    refine ⟨.logInfo ("Reading configuration from " ++ path) ::
      ((rabbit_steps env "2steps" "slack_alerts").map .broker ++
        [.httpPost c.slack.url, status_log status]), ?_, ?_⟩
    · simp [main_model, hcfg, hr, rabbit_drop]
    · unfold status_log
      split <;> rfl

/-- Witness for C6 with a successful send. -/
theorem c6_teardown_order_witness :
    ∃ evs, (main_model "p" (.ok "cfg") fixedLoad none okOracle (.ok ())
        (.ok ()) (.ok 200)).1 =
      evs ++ [.broker (.channelClose 200 "client shut down"),
              .broker (.connectionClose 200 "client shut down")] ∧
      evs.countP isCloseEvent = 0 :=
  c6_teardown_order "p" (.ok "cfg") fixedLoad none okOracle ⟨⟨"https://x"⟩⟩
    (.ok 200) rfl rfl

/-- Claim C8: the orchestrator runs configuration, broker session and send in
that order: a configuration failure produces exactly that error with no broker
call and no HTTP send attempted; a broker failure wraps the error in the
descriptive message and no HTTP send is attempted; and on success the trace
shows the configuration read first, then all five broker steps, then the
POST. -/
theorem c8_stage_sequencing (path : String) (raw : Except String String)
    (load_from_str : String → Except String (List Yaml))
    (env : Option String) (o : BrokerOracle)
    (chanClose connClose : Except String Unit)
    (sendResult : Except String Nat) :
    (∀ e, read_config raw load_from_str = .err e →
      main_model path raw load_from_str env o chanClose connClose sendResult =
        ([.logInfo ("Reading configuration from " ++ path)], .err e)) ∧
    (∀ c e, read_config raw load_from_str = .ok c →
      (rabbit_connect env o "2steps" "slack_alerts").2 = .error e →
      (main_model path raw load_from_str env o chanClose connClose
        sendResult).2 = .err ("Failed to initialize rabbit: " ++ e) ∧
      ∀ u, MainEvent.httpPost u ∉
        (main_model path raw load_from_str env o chanClose connClose
          sendResult).1) ∧
    (∀ c, read_config raw load_from_str = .ok c → o.allOk = true →
      ∃ tl, (main_model path raw load_from_str env o chanClose connClose
          sendResult).1 =
        .logInfo ("Reading configuration from " ++ path) ::
        ((rabbit_steps env "2steps" "slack_alerts").map .broker ++
          .httpPost c.slack.url :: tl)) := by
  refine ⟨?_, ?_, ?_⟩
  · intro e h
    simp [main_model, h]
  · intro c e hc hr2
    refine ⟨?_, ?_⟩
    · simp [main_model, hc, hr2]
    · intro u
      simp [main_model, hc, hr2]
  · intro c hc hall
    have hr := rabbit_connect_of_allOk env o "2steps" "slack_alerts" hall
    cases sendResult with
    | error e =>
      exact ⟨(rabbit_drop chanClose connClose).1.map .broker,
        by simp [main_model, hc, hr]⟩
    | ok status =>
      exact ⟨status_log status :: (rabbit_drop chanClose connClose).1.map
        .broker, by simp [main_model, hc, hr]⟩

/-- Witness for C8 at a configuration that cannot be read: the run fails with
that error alone and no broker or HTTP event is issued. -/
theorem c8_stage_sequencing_witness :
    main_model "p" (.error "no such file") fixedLoad none okOracle (.ok ())
      (.ok ()) (.ok 200) =
      ([.logInfo ("Reading configuration from " ++ "p")],
       .err ("Unable to read configuration: " ++ "no such file")) :=
  (c8_stage_sequencing "p" (.error "no such file") fixedLoad none okOracle
    (.ok ()) (.ok ()) (.ok 200)).1
    ("Unable to read configuration: " ++ "no such file") rfl

end TwoStepsSlackAlert
